import Mathlib

/-!
Verification of the MCP email-agent repository: a shallow embedding of the
JSON-RPC stdio-to-HTTP proxy (mcp_http_proxy.py), the HTTP MCP responder
(email_mcp_lambda.py), the MCP client / tool registry and conversation loops
(agent.py, agent_runner.py, test_local.py), together with theorems settling
the specification claims about them.

External collaborators (the HTTP library, the model inference endpoint, the
SES email API) are modelled as explicit function parameters returning
`Except String _`, where `.error msg` stands for a raised Python exception
with message `msg`.
-/

namespace MCPRepo

/-- A parsed JSON value (the result of Python `json.loads`): Python `None`
is `null`, dicts are `obj` association lists in insertion order. -/
inductive Json where
  | null
  | bool (b : Bool)
  | num (n : Int)
  | str (s : String)
  | arr (xs : List Json)
  | obj (kvs : List (String × Json))

/-- First value bound to a key in a Python dict (association list). -/
def lookupKey : List (String × Json) → String → Option Json
  | [], _ => none
  | (k, v) :: rest, key => if k = key then some v else lookupKey rest key

/-- Python `d.get(key, default)`: returns the default when the key is absent,
and raises `AttributeError` when the receiver is not a dict. -/
def pyGetD (j : Json) (key : String) (d : Json) : Except String Json :=
  match j with
  | .obj kvs => .ok ((lookupKey kvs key).getD d)
  | _ => .error "AttributeError"

/-- Python truthiness of a parsed JSON value. -/
def pyTruthy : Json → Bool
  | .null => false
  | .bool b => b
  | .num n => n != 0
  | .str s => s ≠ ""
  | .arr xs => ¬xs.isEmpty
  | .obj kvs => ¬kvs.isEmpty

/-- Python `x[0]`: first element of a list, first character of a string;
raises `IndexError` when empty and `TypeError` on non-indexable values. -/
def pyIndex0 : Json → Except String Json
  | .arr (x :: _) => .ok x
  | .arr [] => .error "IndexError"
  | .str s => if s = "" then .error "IndexError" else .ok (.str (s.take 1))
  | _ => .error "TypeError"

mutual

/-- Python `repr` of a parsed JSON value (used by `str` on containers). -/
def pyRepr : Json → String
  | .null => "None"
  | .bool true => "True"
  | .bool false => "False"
  | .num n => toString n
  | .str s => "\x27" ++ s ++ "\x27"
  | .arr xs => "[" ++ pyReprList xs ++ "]"
  | .obj kvs => "\x7b" ++ pyReprObj kvs ++ "\x7d"

/-- Comma-joined `repr`s of list elements. -/
def pyReprList : List Json → String
  | [] => ""
  | [x] => pyRepr x
  | x :: y :: rest => pyRepr x ++ ", " ++ pyReprList (y :: rest)

/-- Comma-joined `repr`s of dict entries. -/
def pyReprObj : List (String × Json) → String
  | [] => ""
  | [(k, v)] => "\x27" ++ k ++ "\x27: " ++ pyRepr v
  | (k, v) :: e :: rest =>
      "\x27" ++ k ++ "\x27: " ++ pyRepr v ++ ", " ++ pyReprObj (e :: rest)

end

/-- Python `str` of a parsed JSON value: a string is returned as is, every
other value renders as its `repr`. -/
def pyStrTop : Json → String
  | .str s => s
  | j => pyRepr j

mutual

/-- Python `json.dumps` of a parsed JSON value (default separators). -/
def pyDumps : Json → String
  | .null => "null"
  | .bool true => "true"
  | .bool false => "false"
  | .num n => toString n
  | .str s => "\"" ++ s ++ "\""
  | .arr xs => "[" ++ pyDumpsList xs ++ "]"
  | .obj kvs => "\x7b" ++ pyDumpsObj kvs ++ "\x7d"

/-- Comma-joined `dumps` of list elements. -/
def pyDumpsList : List Json → String
  | [] => ""
  | [x] => pyDumps x
  | x :: y :: rest => pyDumps x ++ ", " ++ pyDumpsList (y :: rest)

/-- Comma-joined `dumps` of dict entries. -/
def pyDumpsObj : List (String × Json) → String
  | [] => ""
  | [(k, v)] => "\"" ++ k ++ "\": " ++ pyDumps v
  | (k, v) :: e :: rest =>
      "\"" ++ k ++ "\": " ++ pyDumps v ++ ", " ++ pyDumpsObj (e :: rest)

end

/-! ## mcp_http_proxy.py — the stdio-to-HTTP relay -/

/-- The JSON-RPC error envelope the proxy emits when the downstream HTTP
call or its response parsing fails for a request (mcp_http_proxy.py 41-46). -/
def proxyErrorEnvelope (msgId : Json) (excMsg : String) : Json :=
  .obj [("jsonrpc", .str "2.0"), ("id", msgId),
        ("error", .obj [("code", .num (-32603)), ("message", .str excMsg)])]

/-- One stdin line of the proxy after stripping and `json.loads`: blank,
malformed (JSONDecodeError), or a parsed message. -/
inductive LineIn where
  | blank
  | malformed
  | msg (j : Json)

/-- `mcp_http_proxy.main`, body of the per-message handling for one parsed
message. `post` models `requests.post(MCP_URL, json=msg)` followed by
`resp.json()`; `.error e` is any exception raised by either. Returns the
list of lines written to stdout (empty for notifications), or the message
of an uncaught exception. -/
def processMsg (post : Json → Except String Json) (msg : Json) :
    Except String (List String) := do
  let msgId ← pyGetD msg "id" .null
  let _method ← pyGetD msg "method" (.str "")
  match post msg with
  | .ok respData =>
      match msgId with
      | .null => pure []
      | _ => pure [pyDumps respData ++ "\n"]
  | .error exc =>
      match msgId with
      | .null => pure []
      | _ => pure [pyDumps (proxyErrorEnvelope msgId exc) ++ "\n"]

/-- `mcp_http_proxy.main`: iterate over stdin lines, skipping blank and
malformed ones; an uncaught exception aborts the loop. Returns all lines
written to stdout. -/
def proxyMain (post : Json → Except String Json) :
    List LineIn → Except String (List String)
  | [] => .ok []
  | .blank :: rest => proxyMain post rest
  | .malformed :: rest => proxyMain post rest
  | .msg j :: rest => do
      let out ← processMsg post j
      let outRest ← proxyMain post rest
      pure (out ++ outRest)

/-! ## email_mcp_lambda.py — the HTTP MCP responder -/

/-- The FastAPI response of the MCP handler: a JSON body, or a bodyless
response with a status code (the 204 notification case). -/
inductive LambdaResponse where
  | jsonBody (j : Json)
  | noBody (status : Nat)

/-- The `_TOOL_SCHEMA` constant of email_mcp_lambda.py. -/
def emailToolSchema : Json :=
  .obj [("name", .str "send_email"),
        ("description", .str "Send an email. Optionally include cc as a list of addresses."),
        ("inputSchema", .obj [
          ("type", .str "object"),
          ("properties", .obj [
            ("to_email", .obj [("type", .str "string"), ("description", .str "Recipient email address")]),
            ("from_email", .obj [("type", .str "string"), ("description", .str "Sender email address")]),
            ("subject", .obj [("type", .str "string"), ("description", .str "Email subject line")]),
            ("content", .obj [("type", .str "string"), ("description", .str "Email body (HTML supported)")]),
            ("cc", .obj [("type", .str "array"), ("items", .obj [("type", .str "string")]), ("description", .str "CC recipients (optional)")])]),
          ("required", .arr [.str "to_email", .str "from_email", .str "subject", .str "content"])])]

/-- `email_mcp_lambda.mcp_handler`. `sendEmail` models the
`requests.post(EMAIL_API_URL, ...)` call followed by `raise_for_status()`,
returning the HTTP status code on success; `.error e` is a raised
exception with message `e`. The outer `Except` is an exception escaping
the handler (e.g. `.get` on a non-dict body). -/
def mcp_handler (sendEmail : Json → Except String Nat) (body : Json) :
    Except String LambdaResponse := do
  let method ← pyGetD body "method" (.str "")
  let params ← pyGetD body "params" (.obj [])
  let requestId ← pyGetD body "id" .null
  match method with
  | .str "initialize" =>
      pure (.jsonBody (.obj [("jsonrpc", .str "2.0"), ("id", requestId),
        ("result", .obj [
          ("protocolVersion", .str "2024-11-05"),
          ("serverInfo", .obj [("name", .str "email-mcp-server"), ("version", .str "2.0.0")]),
          ("capabilities", .obj [("tools", .obj [])])])]))
  | .str "tools/list" =>
      pure (.jsonBody (.obj [("jsonrpc", .str "2.0"), ("id", requestId),
        ("result", .obj [("tools", .arr [emailToolSchema])])]))
  | .str "tools/call" => do
      let toolName ← pyGetD params "name" .null
      let arguments ← pyGetD params "arguments" (.obj [])
      match toolName with
      | .str "send_email" => do
          let toEmail ← pyGetD arguments "to_email" .null
          let fromEmail ← pyGetD arguments "from_email" .null
          let subject ← pyGetD arguments "subject" .null
          let contentV ← pyGetD arguments "content" .null
          let cc ← pyGetD arguments "cc" .null
          let payload : Json := .obj ([("to_email", toEmail), ("from_email", fromEmail),
            ("subject", subject), ("content", contentV)] ++
            (if pyTruthy cc then [("cc", cc)] else []))
          match sendEmail payload with
          | .error e =>
              pure (.jsonBody (.obj [("jsonrpc", .str "2.0"), ("id", requestId),
                ("error", .obj [("code", .num (-32000)),
                  ("message", .str ("Email send failed: " ++ e))])]))
          | .ok status =>
              let ccNote := if pyTruthy cc then ", cc: " ++ pyStrTop cc else ""
              pure (.jsonBody (.obj [("jsonrpc", .str "2.0"), ("id", requestId),
                ("result", .obj [("content", .arr [.obj [("type", .str "text"),
                  ("text", .str ("Email sent from " ++ pyStrTop fromEmail ++ " to " ++
                    pyStrTop toEmail ++ ccNote ++ " — status " ++ toString status))]])])]))
      | _ =>
          pure (.jsonBody (.obj [("jsonrpc", .str "2.0"), ("id", requestId),
            ("error", .obj [("code", .num (-32601)),
              ("message", .str ("Tool not found: " ++ pyStrTop toolName))])]))
  | _ =>
      match requestId with
      | .null => pure (.noBody 204)
      | _ =>
          pure (.jsonBody (.obj [("jsonrpc", .str "2.0"), ("id", requestId),
            ("error", .obj [("code", .num (-32601)),
              ("message", .str ("Method not found: " ++ pyStrTop method))])]))

/-! ## agent.py / agent_runner.py — MCP client: discovery and tool calls -/

/-- One discovered tool dict: the fields the code reads (`name`,
`description`, `inputSchema`). -/
structure ToolSpec where
  name : String
  description : String
  inputSchema : Json

/-- `MCPServer` dataclass (agent.py 27-33 / agent_runner.py 41-48). -/
structure MCPServer where
  name : String
  url : String
  description : String
  enabled : Bool
  tools : List ToolSpec

/-- One `mcpServers` entry of settings.json as the code reads it:
the truthiness of `cfg.get("enabled", True)`, the `httpUrl` value when the
key is present, and `cfg.get("description", "")`. -/
structure ServerCfg where
  enabled : Bool
  httpUrl : Option String
  description : String

/-- The MCP client state after discovery: `self.servers` (dict values in
insertion order) and `self.all_tools` (each tool tagged with the
`_mcp_server` name set at agent.py 69 / agent_runner.py 115). -/
structure MCPState where
  servers : List MCPServer
  all_tools : List (ToolSpec × String)

/-- `MCPClient._rpc` / `MCPClient._make_mcp_request`: build the JSON-RPC 2.0
envelope with `id` 1 and POST it. `post` models `httpx.Client.post` followed
by `raise_for_status()` and `.json()`; `.error e` is any exception raised. -/
def rpcRequest (post : String → Json → Except String Json)
    (url method : String) (params : Json) : Except String Json :=
  post url (.obj [("jsonrpc", .str "2.0"), ("method", .str method),
                  ("params", params), ("id", .num 1)])

/-- `MCPClient.connect` (agent.py 51-73): for each configured server, skip
disabled entries and entries without a truthy `httpUrl`; list tools via
`_list_tools`; on an exception, log and continue without registering the
server. `listTools` models `_list_tools url` (the `tools/list` RPC). -/
def connect (listTools : String → Except String (List ToolSpec)) :
    List (String × ServerCfg) → MCPState
  | [] => ⟨[], []⟩
  | (name, cfg) :: rest =>
      if cfg.enabled then
        match cfg.httpUrl with
        | none => connect listTools rest
        | some url =>
            if url = "" then connect listTools rest
            else
              match listTools url with
              | .error _ => connect listTools rest
              | .ok tools =>
                  let st := connect listTools rest
                  ⟨⟨name, url, cfg.description, true, tools⟩ :: st.servers,
                   tools.map (fun t => (t, name)) ++ st.all_tools⟩
      else connect listTools rest

/-- `MCPClient.connect_to_servers` (agent_runner.py 74-121): same loop, but
`_discover_tools` catches its own exceptions and returns `[]`, so a server
whose discovery fails is still registered, with an empty tool list. -/
def connectToServers (listTools : String → Except String (List ToolSpec)) :
    List (String × ServerCfg) → MCPState
  | [] => ⟨[], []⟩
  | (name, cfg) :: rest =>
      if cfg.enabled then
        match cfg.httpUrl with
        | none => connectToServers listTools rest
        | some url =>
            if url = "" then connectToServers listTools rest
            else
              let tools := match listTools url with
                | .error _ => []
                | .ok ts => ts
              let st := connectToServers listTools rest
              ⟨⟨name, url, cfg.description, cfg.enabled, tools⟩ :: st.servers,
               tools.map (fun t => (t, name)) ++ st.all_tools⟩
      else connectToServers listTools rest

/-- Result extraction shared by `MCPClient.call_tool` in agent.py (96-99)
and agent_runner.py (177-181): `resp.get("result", \x7b\x7d).get("content", [])`;
return the first text block, else `str(content)`. -/
def extractContent (resp : Json) : Except String Json := do
  let result ← pyGetD resp "result" (.obj [])
  let contentV ← pyGetD result "content" (.arr [])
  if pyTruthy contentV then do
    let c0 ← pyIndex0 contentV
    let ty ← pyGetD c0 "type" .null
    match ty with
    | .str "text" => pyGetD c0 "text" (.str "")
    | _ => pure (.str (pyStrTop contentV))
  else
    pure (.str (pyStrTop contentV))

/-- `MCPClient.call_tool` (agent.py 89-100): scan `self.servers.values()`
in insertion order, issue `tools/call` against the FIRST server whose tool
list contains the name; raise `ValueError` when none does. -/
def call_tool (post : String → Json → Except String Json)
    (servers : List MCPServer) (toolName : String) (arguments : Json) :
    Except String Json :=
  match servers with
  | [] => .error ("Tool \x27" ++ toolName ++ "\x27 not found in any MCP server")
  | s :: rest =>
      if toolName ∈ s.tools.map ToolSpec.name then do
        let resp ← rpcRequest post s.url "tools/call"
          (.obj [("name", .str toolName),
                 ("arguments", if pyTruthy arguments then arguments else .obj [])])
        extractContent resp
      else call_tool post rest toolName arguments

/-- The first server whose tool list contains the name (the
`for server in self.servers.values(): ... break` search of
agent_runner.py 157-162). -/
def findTargetServer (servers : List MCPServer) (toolName : String) :
    Option MCPServer :=
  match servers with
  | [] => none
  | s :: rest =>
      if toolName ∈ s.tools.map ToolSpec.name then some s
      else findTargetServer rest toolName

/-- `MCPClient.call_tool` (agent_runner.py 151-181): find the first server
publishing the tool, then issue `tools/call` and extract the result. -/
def runnerCallTool (post : String → Json → Except String Json)
    (servers : List MCPServer) (toolName : String) (arguments : Json) :
    Except String Json :=
  match findTargetServer servers toolName with
  | none => .error ("Tool \x27" ++ toolName ++ "\x27 not found in any MCP server")
  | some s => do
      let resp ← rpcRequest post s.url "tools/call"
        (.obj [("name", .str toolName),
               ("arguments", if pyTruthy arguments then arguments else .obj [])])
      extractContent resp

/-! ## The conversation loops -/

/-- The stop reason tag of a model response. -/
inductive StopReason where
  | endTurn
  | toolUse
  | other (s : String)

/-- One content block of a model response: a text block, or a tool-use
block with its correlation id, tool name and structured input. -/
inductive ContentBlock where
  | text (s : String)
  | toolUse (id name : String) (input : Json)

/-- A model response: stop reason plus content blocks. -/
structure ModelResponse where
  stop_reason : StopReason
  content : List ContentBlock

/-- One tool-result dict appended to the conversation:
`tool_use_id` is the correlation id of the originating block; `is_error`
is `some true` when agent_runner tags a failure, `none` when the key is
absent (agent.py and all successes). -/
structure ToolResult where
  tool_use_id : String
  content : Json
  is_error : Option Bool

/-- Message content in the conversation history. -/
inductive MsgContent where
  | text (s : String)
  | blocks (bs : List ContentBlock)
  | results (rs : List ToolResult)

/-- One conversation message. -/
structure Message where
  role : String
  content : MsgContent

/-- The tool-use blocks of a response, in order: (id, name, input). -/
def toolUses : List ContentBlock → List (String × String × Json)
  | [] => []
  | .text _ :: rest => toolUses rest
  | .toolUse i n a :: rest => (i, n, a) :: toolUses rest

/-- The tool names appended to `tools_used` while scanning a response. -/
def usedNames (content : List ContentBlock) : List String :=
  (toolUses content).map (fun b => b.2.1)

/-- `"".join(b.text for b in response.content if hasattr(b, "text"))`. -/
def finalText : List ContentBlock → String
  | [] => ""
  | .text s :: rest => s ++ finalText rest
  | .toolUse _ _ _ :: rest => finalText rest

/-- The Session Result dict of agent.py `run` and test_local `run`. -/
structure SessionResult where
  response : String
  tools_used : List String
  turns : Nat

/-- Tool execution per turn in agent.py `run` (176-188): one result per
tool-use block, in order; an exception from `call_tool` is caught and
becomes the string `Error: ...`; the dict carries `str(result)` and no
`is_error` key. `ct` models `self.mcp.call_tool`. -/
def agentToolResults (ct : String → Json → Except String Json) :
    List ContentBlock → List ToolResult
  | [] => []
  | .text _ :: rest => agentToolResults ct rest
  | .toolUse i n a :: rest =>
      let r : Json := match ct n a with
        | .ok v => .str (pyStrTop v)
        | .error e => .str ("Error: " ++ e)
      ⟨i, r, none⟩ :: agentToolResults ct rest

/-- `DynamicAgent.run` (agent.py 157-193), one loop iteration per unit of
fuel; `maxTurns - fuel` is the 0-based `turn` index of the current
iteration. `oracle` models `self.client.messages.create` on the current
message list (the fixed system prompt and tool catalog are absorbed into
it); its `.error` is an API exception, which agent.py does not catch.
Returns the Session Result paired with the number of model calls made. -/
def agentRunAux (oracle : List Message → Except String ModelResponse)
    (ct : String → Json → Except String Json) (maxTurns : Nat) :
    Nat → List Message → List String → Except String (SessionResult × Nat)
  | 0, _msgs, used => .ok (⟨"Max turns reached", used, maxTurns⟩, 0)
  | fuel + 1, msgs, used => do
      let resp ← oracle msgs
      match resp.stop_reason with
      | .endTurn =>
          pure (⟨finalText resp.content, used, maxTurns - fuel⟩, 1)
      | .toolUse => do
          let results := agentToolResults ct resp.content
          let (out, calls) ← agentRunAux oracle ct maxTurns fuel
            (msgs ++ [⟨"assistant", .blocks resp.content⟩, ⟨"user", .results results⟩])
            (used ++ usedNames resp.content)
          pure (out, calls + 1)
      | .other _ => do
          let (out, calls) ← agentRunAux oracle ct maxTurns fuel msgs used
          pure (out, calls + 1)

/-- `DynamicAgent.run` (agent.py 157-193) on a prompt: start from the
single user message and the empty `tools_used` list. -/
def agentRun (oracle : List Message → Except String ModelResponse)
    (ct : String → Json → Except String Json) (maxTurns : Nat)
    (prompt : String) : Except String (SessionResult × Nat) :=
  agentRunAux oracle ct maxTurns maxTurns [⟨"user", .text prompt⟩] []

/-- The result dict of `DynamicAgent.execute_task` (agent_runner.py):
`result` and `mcp_servers_used` are present only on some branches,
`error` only on the error branch. -/
structure RunnerResult where
  status : String
  result : Option String
  error : Option String
  tool_calls : Nat
  turns : Nat
  mcp_servers_used : Option (List String)

/-- Tool execution per turn in `execute_task` (agent_runner.py 636-663):
like agent.py, but a failure result is tagged `"is_error": True`. -/
def runnerToolResults (ct : String → Json → Except String Json) :
    List ContentBlock → List ToolResult
  | [] => []
  | .text _ :: rest => runnerToolResults ct rest
  | .toolUse i n a :: rest =>
      match ct n a with
      | .ok v => ⟨i, .str (pyStrTop v), none⟩ :: runnerToolResults ct rest
      | .error e => ⟨i, .str ("Error: " ++ e), some true⟩ :: runnerToolResults ct rest

/-- The `max_turns_reached` result returned after the loop
(agent_runner.py 692-697); also reached via `break` on an unexpected
stop reason (679). -/
def maxTurnsResult (cnt maxTurns : Nat) : RunnerResult :=
  ⟨"max_turns_reached", some "Task incomplete - max turns reached", none,
   cnt, maxTurns, none⟩

/-- `DynamicAgent.execute_task` (agent_runner.py 601-697), one loop
iteration per unit of fuel. The whole iteration body is wrapped in
try/except: an oracle exception yields the `error` result with
`turns = turn + 1`. An unexpected stop reason `break`s to the
`max_turns_reached` return. Returns the result dict paired with the
number of model calls made. -/
def executeTaskAux (oracle : List Message → Except String ModelResponse)
    (ct : String → Json → Except String Json) (serverNames : List String)
    (maxTurns : Nat) :
    Nat → List Message → Nat → RunnerResult × Nat
  | 0, _msgs, cnt => (maxTurnsResult cnt maxTurns, 0)
  | fuel + 1, msgs, cnt =>
      match oracle msgs with
      | .error e => (⟨"error", none, some e, cnt, maxTurns - fuel, none⟩, 1)
      | .ok resp =>
          match resp.stop_reason with
          | .endTurn =>
              (⟨"completed", some (finalText resp.content), none, cnt,
                maxTurns - fuel, some serverNames⟩, 1)
          | .toolUse =>
              let results := runnerToolResults ct resp.content
              let (out, calls) := executeTaskAux oracle ct serverNames maxTurns fuel
                (msgs ++ [⟨"assistant", .blocks resp.content⟩, ⟨"user", .results results⟩])
                (cnt + (toolUses resp.content).length)
              (out, calls + 1)
          | .other _ => (maxTurnsResult cnt maxTurns, 1)

/-- `DynamicAgent.execute_task` (agent_runner.py 567-697) on a task. -/
def executeTask (oracle : List Message → Except String ModelResponse)
    (ct : String → Json → Except String Json) (serverNames : List String)
    (maxTurns : Nat) (task : String) : RunnerResult × Nat :=
  executeTaskAux oracle ct serverNames maxTurns maxTurns [⟨"user", .text task⟩] 0

/-! ## test_local.py — local runner -/

/-- Python dict assignment `m[k] = v`: overwrite in place when the key
exists, append otherwise. -/
def dictInsert {α : Type} (m : List (String × α)) (k : String) (v : α) :
    List (String × α) :=
  match m with
  | [] => [(k, v)]
  | (k2, v2) :: rest =>
      if k2 = k then (k, v) :: rest else (k2, v2) :: dictInsert rest k v

/-- Python dict lookup `m.get(k)`. -/
def dictGet {α : Type} (m : List (String × α)) (k : String) : Option α :=
  match m with
  | [] => none
  | (k2, v) :: rest => if k2 = k then some v else dictGet rest k

/-- Insert every tool of one server into `server_tools`
(test_local.py 91-92): `server_tools[t["name"]] = \x7b"url": url, "schema": t\x7d`. -/
def insertTools (url : String) (acc : List (String × (String × ToolSpec))) :
    List ToolSpec → List (String × (String × ToolSpec))
  | [] => acc
  | t :: ts => insertTools url (dictInsert acc t.name (url, t)) ts

/-- The discovery loop of test_local `run` (85-98): for each configured
server, call `list_tools` (an exception propagates) and register every
tool under its name, later registrations overwriting earlier ones. -/
def testDiscoverAux (listTools : String → Except String (List ToolSpec))
    (acc : List (String × (String × ToolSpec))) :
    List (String × String) → Except String (List (String × (String × ToolSpec)))
  | [] => .ok acc
  | (_, url) :: rest => do
      let ts ← listTools url
      testDiscoverAux listTools (insertTools url acc ts) rest

/-- `server_tools` after the discovery loop of test_local `run`. -/
def testDiscover (listTools : String → Except String (List ToolSpec))
    (servers : List (String × String)) :
    Except String (List (String × (String × ToolSpec))) :=
  testDiscoverAux listTools [] servers

/-- `call_tool` of test_local.py (63-72): POST the `tools/call` envelope
(id 1), `raise_for_status`, then
`content[0].get("text", str(content)) if content else ""`. -/
def testCallTool (post : String → Json → Except String Json)
    (url toolName : String) (arguments : Json) : Except String Json := do
  let resp ← post url (.obj [("jsonrpc", .str "2.0"), ("method", .str "tools/call"),
    ("params", .obj [("name", .str toolName), ("arguments", arguments)]),
    ("id", .num 1)])
  let result ← pyGetD resp "result" (.obj [])
  let contentV ← pyGetD result "content" (.arr [])
  if pyTruthy contentV then do
    let c0 ← pyIndex0 contentV
    pyGetD c0 "text" (.str (pyStrTop contentV))
  else
    pure (.str "")

/-- Tool execution per turn in test_local `run` (120-131): look the name
up in `server_tools`; a missing tool yields the string
`Tool \x27name\x27 not found`; a `call_tool` exception propagates (no
try/except here, unlike agent.py). -/
def testToolResults (post : String → Json → Except String Json)
    (serverTools : List (String × (String × ToolSpec))) :
    List ContentBlock → Except String (List ToolResult)
  | [] => .ok []
  | .text _ :: rest => testToolResults post serverTools rest
  | .toolUse i n a :: rest => do
      let r ← match dictGet serverTools n with
        | some info => testCallTool post info.1 n a
        | none => pure (.str ("Tool \x27" ++ n ++ "\x27 not found"))
      let others ← testToolResults post serverTools rest
      pure (⟨i, r, none⟩ :: others)

/-- The loop of test_local `run` (105-134), one iteration per unit of
fuel; `maxTurns - (fuel + 1)` is the 0-based `turn` of the current
iteration. Returns `(response_text, tools_used, last bound value of
turn)` — `none` when the loop body never ran, mirroring the Python
local variable `turn` being unbound. -/
def testLocalAux (oracle : List Message → Except String ModelResponse)
    (post : String → Json → Except String Json)
    (serverTools : List (String × (String × ToolSpec))) (maxTurns : Nat) :
    Nat → List Message → List String → Option Nat →
    Except String (String × List String × Option Nat)
  | 0, _msgs, used, lastTurn => .ok ("", used, lastTurn)
  | fuel + 1, msgs, used, _lastTurn => do
      let turn := maxTurns - (fuel + 1)
      let resp ← oracle msgs
      match resp.stop_reason with
      | .endTurn => pure (finalText resp.content, used, some turn)
      | .toolUse => do
          let trs ← testToolResults post serverTools resp.content
          testLocalAux oracle post serverTools maxTurns fuel
            (msgs ++ [⟨"assistant", .blocks resp.content⟩, ⟨"user", .results trs⟩])
            (used ++ usedNames resp.content) (some turn)
      | .other _ =>
          testLocalAux oracle post serverTools maxTurns fuel msgs used (some turn)

/-- `run` of test_local.py (79-136): discovery, then the loop, then
`return \x7b..., "turns": turn + 1\x7d` — which raises
`UnboundLocalError` when the loop body never executed. -/
def testLocalRun (oracle : List Message → Except String ModelResponse)
    (post : String → Json → Except String Json)
    (listTools : String → Except String (List ToolSpec))
    (servers : List (String × String)) (prompt : String) (maxTurns : Nat) :
    Except String SessionResult := do
  let serverTools ← testDiscover listTools servers
  let (text, used, lastTurn) ←
    testLocalAux oracle post serverTools maxTurns maxTurns
      [⟨"user", .text prompt⟩] [] none
  match lastTurn with
  | none => .error "UnboundLocalError: turn"
  | some t => pure ⟨text, used, t + 1⟩

/-! ## Shared helper lemmas -/

/-- Reduction of `Except` bind on a success value. -/
@[simp] theorem okBind {α β : Type} (a : α) (f : α → Except String β) :
    (Except.ok a : Except String α) >>= f = f a := rfl

/-- Reduction of `Except` bind on an exception. -/
@[simp] theorem errBind {α β : Type} (e : String) (f : α → Except String β) :
    (Except.error e : Except String α) >>= f = .error e := rfl

/-- `pyGetD` on a dict receiver. -/
@[simp] theorem pyGetD_obj (kvs : List (String × Json)) (k : String) (d : Json) :
    pyGetD (.obj kvs) k d = .ok ((lookupKey kvs k).getD d) := rfl

/-- `pure` into `Except` is `.ok`. -/
@[simp] theorem pureOk {α : Type} (a : α) :
    (pure a : Except String α) = .ok a := rfl

/-- agent.py `call_tool` and agent_runner.py `call_tool` implement the same
first-matching-server dispatch. -/
theorem call_tool_eq_runnerCallTool
    (post : String → Json → Except String Json) (servers : List MCPServer)
    (toolName : String) (arguments : Json) :
    call_tool post servers toolName arguments =
      runnerCallTool post servers toolName arguments := by
  induction servers with
  | nil => rfl
  | cons s rest ih =>
      unfold call_tool runnerCallTool findTargetServer
      by_cases h : toolName ∈ s.tools.map ToolSpec.name
      · simp only [if_pos h]
      · simp only [if_neg h]
        rw [ih]
        rfl

/-! ## Claim C1 -/

/-- An environment for the lambda handler whose email API call succeeds. -/
def sendEmailOkC1 : Json → Except String Nat := fun _ => .ok 200

/-- The no-id `initialize` message of the C1 counterexample. -/
def noIdInitMsg : Json :=
  .obj [("jsonrpc", .str "2.0"), ("method", .str "initialize")]

/-- The body `mcp_handler` returns for `noIdInitMsg`. -/
def initReplyBody : Json :=
  .obj [("jsonrpc", .str "2.0"), ("id", .null),
    ("result", .obj [
      ("protocolVersion", .str "2024-11-05"),
      ("serverInfo", .obj [("name", .str "email-mcp-server"), ("version", .str "2.0.0")]),
      ("capabilities", .obj [("tools", .obj [])])])]

/-- Claim C1, counterexample: the HTTP responder does NOT stay silent for
every no-id message — a notification whose method is `initialize` receives
a full JSON body (with `"id": null`), because `email_mcp_lambda.mcp_handler`
checks `request_id is None` only after dispatching on the method. -/
theorem c1_responder_notification_counterexample :
    mcp_handler sendEmailOkC1 noIdInitMsg = .ok (.jsonBody initReplyBody) ∧
    ∀ status : Nat, mcp_handler sendEmailOkC1 noIdInitMsg ≠ .ok (.noBody status) := by
  refine ⟨rfl, ?_⟩
  intro status h
  have h2 : (Except.ok (LambdaResponse.jsonBody initReplyBody) :
      Except String LambdaResponse) = .ok (.noBody status) := h
  injection h2 with h3
  cases h3

/-- Claim C1, amended: the stdio relay writes zero bytes for any message
whose `id` is absent or null, even when the downstream call fails; the
HTTP responder emits no body (204) for a no-id message only when its
method is none of `initialize`, `tools/list`, `tools/call` — for those
three methods it answers with a JSON body even without an id. -/
theorem c1_notification_suppression_amended :
    (∀ (post : Json → Except String Json) (kvs : List (String × Json)),
        (lookupKey kvs "id").getD .null = .null →
        processMsg post (.obj kvs) = .ok []) ∧
    (∀ (send : Json → Except String Nat) (kvs : List (String × Json)) (m : Json),
        (lookupKey kvs "method").getD (.str "") = m →
        m ≠ .str "initialize" → m ≠ .str "tools/list" → m ≠ .str "tools/call" →
        (lookupKey kvs "id").getD .null = .null →
        mcp_handler send (.obj kvs) = .ok (.noBody 204)) := by
  constructor
  · intro post kvs h
    simp only [processMsg, pyGetD_obj, h, okBind]
    cases post (.obj kvs) <;> rfl
  · intro send kvs m hm h1 h2 h3 hid
    simp only [mcp_handler, pyGetD_obj, hm, hid, okBind]
    rfl

/-- Witness for the amended C1 theorem at concrete inputs: the
`initialized` notification with a failing downstream produces no relay
output, and a `notifications/initialized` message with no id gets a
bodyless 204 from the responder. -/
theorem c1_notification_suppression_amended_witness :
    processMsg (fun _ => .error "Connection refused")
      (.obj [("jsonrpc", .str "2.0"), ("method", .str "initialized")]) = .ok [] ∧
    mcp_handler (fun _ => .ok 200)
      (.obj [("jsonrpc", .str "2.0"), ("method", .str "notifications/initialized")]) =
      .ok (.noBody 204) :=
  ⟨c1_notification_suppression_amended.1 _ _ rfl,
   c1_notification_suppression_amended.2 _ _ (.str "notifications/initialized") rfl
     (by simp) (by simp) (by simp) rfl⟩

/-! ## Claim C2 -/

/-- Claim C2: in both conversation loops, a turn whose response carries N
tool-use blocks yields exactly N tool results before the next model call,
one per block in order, each tagged with its block's `tool_use_id`; a
failing invocation only marks its own result (with `Error: ...`, and
`is_error` in agent_runner) and the remaining blocks still execute. The
last conjunct shows agent.py appends exactly these results to the
conversation before the recursive (next-model-call) step. -/
theorem c2_one_result_per_request
    (ct : String → Json → Except String Json) (content : List ContentBlock) :
    agentToolResults ct content =
      (toolUses content).map (fun b =>
        (⟨b.1, match ct b.2.1 b.2.2 with
               | .ok v => Json.str (pyStrTop v)
               | .error e => Json.str ("Error: " ++ e), none⟩ : ToolResult)) ∧
    runnerToolResults ct content =
      (toolUses content).map (fun b =>
        match ct b.2.1 b.2.2 with
        | .ok v => (⟨b.1, .str (pyStrTop v), none⟩ : ToolResult)
        | .error e => (⟨b.1, .str ("Error: " ++ e), some true⟩ : ToolResult)) ∧
    (agentToolResults ct content).map ToolResult.tool_use_id =
      (toolUses content).map (fun b => b.1) ∧
    (runnerToolResults ct content).map ToolResult.tool_use_id =
      (toolUses content).map (fun b => b.1) ∧
    (agentToolResults ct content).length = (toolUses content).length ∧
    (runnerToolResults ct content).length = (toolUses content).length ∧
    (∀ (oracle : List Message → Except String ModelResponse)
       (maxTurns fuel : Nat) (msgs : List Message) (used : List String)
       (resp : ModelResponse),
        oracle msgs = .ok resp → resp.stop_reason = .toolUse →
        agentRunAux oracle ct maxTurns (fuel + 1) msgs used =
          (agentRunAux oracle ct maxTurns fuel
            (msgs ++ [⟨"assistant", .blocks resp.content⟩,
                      ⟨"user", .results (agentToolResults ct resp.content)⟩])
            (used ++ usedNames resp.content)).map
            (fun p => (p.1, p.2 + 1))) := by
  refine ⟨?_, ?_, ?_, ?_, ?_, ?_, ?_⟩
  · induction content with
    | nil => rfl
    | cons b rest ih =>
        cases b with
        | text s => simpa [agentToolResults, toolUses] using ih
        | toolUse i n a =>
            simp only [agentToolResults, toolUses, List.map_cons, ih]
  · induction content with
    | nil => rfl
    | cons b rest ih =>
        cases b with
        | text s => simpa [runnerToolResults, toolUses] using ih
        | toolUse i n a =>
            cases h : ct n a <;>
              simp only [runnerToolResults, toolUses, List.map_cons, h, ih]
  · induction content with
    | nil => rfl
    | cons b rest ih =>
        cases b with
        | text s => simpa [agentToolResults, toolUses] using ih
        | toolUse i n a =>
            simp only [agentToolResults, toolUses, List.map_cons, ih]
  · induction content with
    | nil => rfl
    | cons b rest ih =>
        cases b with
        | text s => simpa [runnerToolResults, toolUses] using ih
        | toolUse i n a =>
            cases h : ct n a <;>
              simp only [runnerToolResults, toolUses, List.map_cons, h, ih]
  · induction content with
    | nil => rfl
    | cons b rest ih =>
        cases b with
        | text s => simpa [agentToolResults, toolUses] using ih
        | toolUse i n a =>
            simp only [agentToolResults, toolUses, List.length_cons, ih]
  · induction content with
    | nil => rfl
    | cons b rest ih =>
        cases b with
        | text s => simpa [runnerToolResults, toolUses] using ih
        | toolUse i n a =>
            cases h : ct n a <;>
              simp only [runnerToolResults, toolUses, List.length_cons, h, ih]
  · intro oracle maxTurns fuel msgs used resp h hs
    conv_lhs => rw [agentRunAux]
    rw [h]
    simp only [okBind]
    rw [hs]
    cases hrec : agentRunAux oracle ct maxTurns fuel
        (msgs ++ [⟨"assistant", .blocks resp.content⟩,
                  ⟨"user", .results (agentToolResults ct resp.content)⟩])
        (used ++ usedNames resp.content) with
    | error e => simp [hrec, Except.map]
    | ok p => cases p with
        | mk out calls => simp [hrec, Except.map]

/-- The tool environment of the C2 witness: `good` succeeds, every other
tool raises. -/
def ctC2 : String → Json → Except String Json := fun n _ =>
  if n = "good" then .ok (.str "fine") else .error "boom"

/-- A turn with one text block and two tool-use blocks, the second of
which will fail. -/
def contentC2 : List ContentBlock :=
  [.text "thinking", .toolUse "tu1" "good" (.obj []), .toolUse "tu2" "bad" (.obj [])]

/-- A model that always requests the C2 blocks. -/
def oracleC2 : List Message → Except String ModelResponse := fun _ =>
  .ok ⟨.toolUse, contentC2⟩

/-- Witness for C2 at a concrete two-tool turn with one failure. -/
theorem c2_one_result_per_request_witness :
    agentToolResults ctC2 contentC2 =
      [⟨"tu1", .str "fine", none⟩, ⟨"tu2", .str "Error: boom", none⟩] ∧
    runnerToolResults ctC2 contentC2 =
      [⟨"tu1", .str "fine", none⟩, ⟨"tu2", .str "Error: boom", some true⟩] ∧
    agentRunAux oracleC2 ctC2 1 1 [⟨"user", .text "hi"⟩] [] =
      (agentRunAux oracleC2 ctC2 1 0
        ([⟨"user", .text "hi"⟩] ++ [⟨"assistant", .blocks contentC2⟩,
          ⟨"user", .results (agentToolResults ctC2 contentC2)⟩])
        ([] ++ usedNames contentC2)).map (fun p => (p.1, p.2 + 1)) := by
  refine ⟨?_, ?_, ?_⟩
  · rw [(c2_one_result_per_request ctC2 contentC2).1]
    rfl
  · rw [(c2_one_result_per_request ctC2 contentC2).2.1]
    rfl
  · exact (c2_one_result_per_request ctC2 contentC2).2.2.2.2.2.2 oracleC2 1 0
      [⟨"user", .text "hi"⟩] [] ⟨.toolUse, contentC2⟩ rfl rfl

/-! ## Claim C3 -/

/-- `Except` functor map hits `.ok` exactly when the argument did. -/
theorem mapOkIff {α β : Type} (f : α → β) (x : Except String α) (y : β) :
    f <$> x = .ok y ↔ ∃ a, x = .ok a ∧ f a = y := by
  cases x with
  | error e => simp [Functor.map, Except.map]
  | ok a => simp [Functor.map, Except.map]

/-- When the model requests tools on every turn, the agent.py loop burns
its whole fuel, makes one model call per unit of fuel, and reports
`turns = maxTurns`. -/
theorem agentRunAux_always_toolUse
    (oracle : List Message → Except String ModelResponse)
    (ct : String → Json → Except String Json) (M : Nat)
    (h : ∀ msgs, ∃ r, oracle msgs = .ok r ∧ r.stop_reason = .toolUse) :
    ∀ fuel msgs used, ∃ used2,
      agentRunAux oracle ct M fuel msgs used =
        .ok (⟨"Max turns reached", used2, M⟩, fuel) := by
  intro fuel
  induction fuel with
  | zero => intro msgs used; exact ⟨used, rfl⟩
  | succ fuel ih =>
      intro msgs used
      obtain ⟨r, hr, hs⟩ := h msgs
      obtain ⟨used2, hu⟩ := ih
        (msgs ++ [⟨"assistant", .blocks r.content⟩,
                  ⟨"user", .results (agentToolResults ct r.content)⟩])
        (used ++ usedNames r.content)
      refine ⟨used2, ?_⟩
      conv_lhs => rw [agentRunAux]
      rw [hr]
      simp only [okBind]
      rw [hs, hu]
      rfl

/-- Every `.ok` outcome of the agent.py loop reports `turns ≤ maxTurns`. -/
theorem agentRunAux_turns_le
    (oracle : List Message → Except String ModelResponse)
    (ct : String → Json → Except String Json) (M : Nat) :
    ∀ fuel msgs used r n,
      agentRunAux oracle ct M fuel msgs used = .ok (r, n) → r.turns ≤ M := by
  intro fuel
  induction fuel with
  | zero =>
      intro msgs used r n h
      injection h with h1
      cases h1
      exact Nat.le_refl M
  | succ fuel ih =>
      intro msgs used r n h
      rw [agentRunAux] at h
      cases hor : oracle msgs with
      | error e => rw [hor] at h; simp only [errBind] at h; cases h
      | ok resp =>
          rw [hor] at h
          simp only [okBind] at h
          cases hs : resp.stop_reason with
          | endTurn =>
              rw [hs] at h
              injection h with h1
              cases h1
              exact Nat.sub_le M fuel
          | toolUse =>
              rw [hs] at h
              cases hrec : agentRunAux oracle ct M fuel
                  (msgs ++ [⟨"assistant", .blocks resp.content⟩,
                    ⟨"user", .results (agentToolResults ct resp.content)⟩])
                  (used ++ usedNames resp.content) with
              | error e => rw [hrec] at h; simp only [errBind] at h; cases h
              | ok p =>
                  rw [hrec] at h
                  simp only [okBind] at h
                  injection h with h1
                  cases h1
                  exact ih _ _ p.1 p.2 hrec
          | other s =>
              rw [hs] at h
              cases hrec : agentRunAux oracle ct M fuel msgs used with
              | error e => rw [hrec] at h; simp only [errBind] at h; cases h
              | ok p =>
                  rw [hrec] at h
                  simp only [okBind] at h
                  injection h with h1
                  cases h1
                  exact ih msgs used p.1 p.2 hrec

/-- When the model requests tools on every turn and every per-turn tool
batch succeeds, the test_local loop burns its whole fuel and the loop
variable `turn` ends at `M - 1`. -/
theorem testLocalAux_always_toolUse
    (oracle : List Message → Except String ModelResponse)
    (post : String → Json → Except String Json)
    (st : List (String × (String × ToolSpec))) (M : Nat)
    (h : ∀ msgs, ∃ r, oracle msgs = .ok r ∧ r.stop_reason = .toolUse)
    (htools : ∀ content, ∃ trs, testToolResults post st content = .ok trs) :
    ∀ fuel msgs used lt, ∃ used2,
      testLocalAux oracle post st M (fuel + 1) msgs used lt =
        .ok ("", used2, some (M - 1)) := by
  intro fuel
  induction fuel with
  | zero =>
      intro msgs used lt
      obtain ⟨r, hr, hs⟩ := h msgs
      obtain ⟨trs, htrs⟩ := htools r.content
      refine ⟨used ++ usedNames r.content, ?_⟩
      conv_lhs => rw [testLocalAux]
      rw [hr]
      simp only [okBind]
      rw [hs, htrs]
      simp only [okBind]
      rfl
  | succ fuel ih =>
      intro msgs used lt
      obtain ⟨r, hr, hs⟩ := h msgs
      obtain ⟨trs, htrs⟩ := htools r.content
      obtain ⟨used2, hu⟩ := ih
        (msgs ++ [⟨"assistant", .blocks r.content⟩, ⟨"user", .results trs⟩])
        (used ++ usedNames r.content) (some (M - (fuel + 1 + 1)))
      refine ⟨used2, ?_⟩
      conv_lhs => rw [testLocalAux]
      rw [hr]
      simp only [okBind]
      rw [hs, htrs]
      simp only [okBind]
      exact hu

/-- Every `.ok` outcome of the test_local loop that carries a bound
`turn` value keeps `turn + 1 ≤ M`, provided the remaining fuel is within
budget and any already-bound `turn` is too. -/
theorem testLocalAux_turns_le
    (oracle : List Message → Except String ModelResponse)
    (post : String → Json → Except String Json)
    (st : List (String × (String × ToolSpec))) (M : Nat) :
    ∀ fuel msgs used lt out,
      fuel ≤ M → (∀ t, lt = some t → t + 1 ≤ M) →
      testLocalAux oracle post st M fuel msgs used lt = .ok out →
      ∀ t, out.2.2 = some t → t + 1 ≤ M := by
  intro fuel
  induction fuel with
  | zero =>
      intro msgs used lt out _ hlt h t ht
      injection h with h1
      cases h1
      exact hlt t ht
  | succ fuel ih =>
      intro msgs used lt out hfuel hlt h t ht
      rw [testLocalAux] at h
      cases hor : oracle msgs with
      | error e => rw [hor] at h; simp only [errBind] at h; cases h
      | ok resp =>
          rw [hor] at h
          simp only [okBind] at h
          cases hs : resp.stop_reason with
          | endTurn =>
              rw [hs] at h
              injection h with h1
              cases h1
              simp only at ht
              cases ht
              omega
          | toolUse =>
              rw [hs] at h
              cases htr : testToolResults post st resp.content with
              | error e => rw [htr] at h; simp only [errBind] at h; cases h
              | ok trs =>
                  rw [htr] at h
                  simp only [okBind] at h
                  exact ih _ _ _ out (by omega)
                    (by intro t2 ht2; injection ht2 with h2; omega) h t ht
          | other s =>
              rw [hs] at h
              exact ih _ _ _ out (by omega)
                (by intro t2 ht2; injection ht2 with h2; omega) h t ht

/-- The per-turn tool execution of test_local always succeeds when every
`call_tool` it can reach succeeds. -/
theorem testToolResults_total (post : String → Json → Except String Json)
    (st : List (String × (String × ToolSpec)))
    (hcall : ∀ (n : String) (a : Json) (info : String × ToolSpec),
      dictGet st n = some info → ∃ v, testCallTool post info.1 n a = .ok v) :
    ∀ content, ∃ trs, testToolResults post st content = .ok trs := by
  intro content
  induction content with
  | nil => exact ⟨[], rfl⟩
  | cons b rest ih =>
      obtain ⟨trs, htrs⟩ := ih
      cases b with
      | text s => exact ⟨trs, htrs⟩
      | toolUse i n a =>
          cases hdg : dictGet st n with
          | none =>
              refine ⟨⟨i, .str ("Tool \x27" ++ n ++ "\x27 not found"), none⟩ :: trs, ?_⟩
              simp only [testToolResults, hdg, pureOk, okBind, htrs]
          | some info =>
              obtain ⟨v, hv⟩ := hcall n a info hdg
              refine ⟨⟨i, v, none⟩ :: trs, ?_⟩
              simp only [testToolResults, hdg, hv, pureOk, okBind, htrs]

/-- Claim C3: with the model requesting a tool call on every turn and
never finishing, agent.py `run` makes exactly M model calls and returns
the budget-exhausted result with `turns = M`; test_local `run` (for a
budget of at least one turn, with discovery and per-turn tool execution
succeeding) likewise returns `turns = M`; and in every successful outcome
of either loop the reported `turns` is at most `max_turns`. -/
theorem c3_turn_budget :
    (∀ (oracle : List Message → Except String ModelResponse)
       (ct : String → Json → Except String Json) (M : Nat) (prompt : String),
        (∀ msgs, ∃ r, oracle msgs = .ok r ∧ r.stop_reason = .toolUse) →
        ∃ used, agentRun oracle ct M prompt =
          .ok (⟨"Max turns reached", used, M⟩, M)) ∧
    (∀ (oracle : List Message → Except String ModelResponse)
       (ct : String → Json → Except String Json) (M : Nat) (prompt : String)
       (r : SessionResult) (n : Nat),
        agentRun oracle ct M prompt = .ok (r, n) → r.turns ≤ M) ∧
    (∀ (oracle : List Message → Except String ModelResponse)
       (post : String → Json → Except String Json)
       (listTools : String → Except String (List ToolSpec))
       (servers : List (String × String)) (prompt : String) (M : Nat)
       (st : List (String × (String × ToolSpec))),
        1 ≤ M →
        testDiscover listTools servers = .ok st →
        (∀ msgs, ∃ r, oracle msgs = .ok r ∧ r.stop_reason = .toolUse) →
        (∀ content, ∃ trs, testToolResults post st content = .ok trs) →
        ∃ used, testLocalRun oracle post listTools servers prompt M =
          .ok ⟨"", used, M⟩) ∧
    (∀ (oracle : List Message → Except String ModelResponse)
       (post : String → Json → Except String Json)
       (listTools : String → Except String (List ToolSpec))
       (servers : List (String × String)) (prompt : String) (M : Nat)
       (r : SessionResult),
        testLocalRun oracle post listTools servers prompt M = .ok r →
        r.turns ≤ M) := by
  refine ⟨?_, ?_, ?_, ?_⟩
  · intro oracle ct M prompt h
    obtain ⟨used2, hu⟩ := agentRunAux_always_toolUse oracle ct M h M
      [⟨"user", .text prompt⟩] []
    exact ⟨used2, hu⟩
  · intro oracle ct M prompt r n h
    exact agentRunAux_turns_le oracle ct M M [⟨"user", .text prompt⟩] [] r n h
  · intro oracle post listTools servers prompt M st hM hd h htools
    obtain ⟨M2, rfl⟩ : ∃ M2, M = M2 + 1 := ⟨M - 1, by omega⟩
    obtain ⟨used2, hu⟩ := testLocalAux_always_toolUse oracle post st (M2 + 1)
      h htools M2 [⟨"user", .text prompt⟩] [] none
    refine ⟨used2, ?_⟩
    unfold testLocalRun
    rw [hd]
    simp only [okBind]
    rw [hu]
    simp only [okBind, Nat.add_sub_cancel]
    rfl
  · intro oracle post listTools servers prompt M r h
    unfold testLocalRun at h
    cases hd : testDiscover listTools servers with
    | error e => rw [hd] at h; simp only [errBind] at h; cases h
    | ok st =>
        rw [hd] at h
        simp only [okBind] at h
        cases haux : testLocalAux oracle post st M M
            [⟨"user", .text prompt⟩] [] none with
        | error e => rw [haux] at h; simp only [errBind] at h; cases h
        | ok out =>
            rw [haux] at h
            simp only [okBind] at h
            have hle := testLocalAux_turns_le oracle post st M M
              [⟨"user", .text prompt⟩] [] none out (Nat.le_refl M)
              (by intro t ht; cases ht) haux
            obtain ⟨text, used2, lt2⟩ := out
            cases lt2 with
            | none => cases h
            | some t =>
                injection h with h1
                cases h1
                exact hle t rfl

/-- A model that always requests one `ping` call, for the C3 witness. -/
def oracleC3 : List Message → Except String ModelResponse := fun _ =>
  .ok ⟨.toolUse, [.toolUse "tu1" "ping" (.obj [])]⟩

/-- A tool environment that always succeeds, for the C3 witness. -/
def ctC3 : String → Json → Except String Json := fun _ _ => .ok (.str "pong")

/-- A transport returning one text block, for the C3 witness. -/
def postC3 : String → Json → Except String Json := fun _ _ =>
  .ok (.obj [("result", .obj [("content", .arr [.obj [("type", .str "text"),
    ("text", .str "pong")]])])])

/-- Discovery environment for the C3 witness: one server, one tool. -/
def listToolsC3 : String → Except String (List ToolSpec) := fun _ =>
  .ok [⟨"ping", "", .obj []⟩]

/-- Witness for C3 at `max_turns = 3`: exactly three model calls, result
`turns = 3`, in both agent.py and test_local, and the bound `turns ≤ 3`. -/
theorem c3_turn_budget_witness :
    agentRun oracleC3 ctC3 3 "hi" =
      .ok (⟨"Max turns reached", ["ping", "ping", "ping"], 3⟩, 3) ∧
    testLocalRun oracleC3 postC3 listToolsC3 [("email", "http://e")] "hi" 3 =
      .ok ⟨"", ["ping", "ping", "ping"], 3⟩ ∧
    (3 : Nat) ≤ 3 := by
  have halways : ∀ msgs, ∃ r, oracleC3 msgs = .ok r ∧
      r.stop_reason = .toolUse := fun _ => ⟨_, rfl, rfl⟩
  refine ⟨?_, ?_, ?_⟩
  · obtain ⟨used2, hu⟩ := c3_turn_budget.1 oracleC3 ctC3 3 "hi" halways
    exact rfl
  · obtain ⟨used2, hu⟩ := c3_turn_budget.2.2.1 oracleC3 postC3 listToolsC3
      [("email", "http://e")] "hi" 3
      [("ping", ("http://e", ⟨"ping", "", .obj []⟩))] (by omega) rfl halways
      (testToolResults_total postC3
        [("ping", ("http://e", ⟨"ping", "", .obj []⟩))]
        (fun n a info _ => ⟨.str "pong", rfl⟩))
    exact rfl
  · exact c3_turn_budget.2.1 oracleC3 ctC3 3 "hi"
      ⟨"Max turns reached", ["ping", "ping", "ping"], 3⟩ 3 rfl

/-! ## Claim C4 -/

/-- A model whose response always carries an unexpected stop reason. -/
def oracleC4 : List Message → Except String ModelResponse := fun _ =>
  .ok ⟨.other "max_tokens", []⟩

/-- A tool environment for the C4 theorems. -/
def ctC4 : String → Json → Except String Json := fun _ _ => .ok (.str "pong")

/-- Claim C4, counterexample: on a stop reason that is neither `end_turn`
nor `tool_use`, `execute_task` breaks out of its loop and reports status
`max_turns_reached` (i.e. budget exhaustion, not an error Session
Result), with `turns = max_turns`; and agent.py `run` keeps calling the
model — 4 further calls for `max_turns = 4` — before reporting the
budget-exhausted result. -/
theorem c4_unexpected_stop_reason_counterexample :
    executeTask oracleC4 ctC4 ["email"] 5 "hi" = (maxTurnsResult 0 5, 1) ∧
    (maxTurnsResult 0 5).status = "max_turns_reached" ∧
    (maxTurnsResult 0 5).status ≠ "error" ∧
    agentRun oracleC4 ctC4 4 "hi" = .ok (⟨"Max turns reached", [], 4⟩, 4) := by
  refine ⟨rfl, rfl, ?_, rfl⟩
  intro h
  exact absurd h (by decide)

/-- When the model's stop reason is always unexpected, agent.py keeps
looping on unchanged messages until the budget is gone, one model call
per unit of fuel. -/
theorem agentRunAux_always_other
    (oracle : List Message → Except String ModelResponse)
    (ct : String → Json → Except String Json) (M : Nat)
    (h : ∀ msgs, ∃ r s, oracle msgs = .ok r ∧ r.stop_reason = .other s) :
    ∀ fuel msgs used,
      agentRunAux oracle ct M fuel msgs used =
        .ok (⟨"Max turns reached", used, M⟩, fuel) := by
  intro fuel
  induction fuel with
  | zero => intro msgs used; rfl
  | succ fuel ih =>
      intro msgs used
      obtain ⟨r, s, hr, hs⟩ := h msgs
      conv_lhs => rw [agentRunAux]
      rw [hr]
      simp only [okBind]
      rw [hs, ih msgs used]
      rfl

/-- Claim C4, amended: a stop reason other than `end_turn` and `tool_use`
does end `execute_task` immediately (exactly one further model call is
charged for the turn that produced it, none after), but the Session
Result reports status `max_turns_reached` with `turns = max_turns`, not
an error; agent.py `run` instead keeps calling the model on unchanged
messages until the turn budget is exhausted and then reports the
budget-exhausted result. -/
theorem c4_unexpected_stop_reason_amended :
    (∀ (oracle : List Message → Except String ModelResponse)
       (ct : String → Json → Except String Json) (names : List String)
       (M fuel : Nat) (msgs : List Message) (cnt : Nat)
       (r : ModelResponse) (s : String),
        oracle msgs = .ok r → r.stop_reason = .other s →
        executeTaskAux oracle ct names M (fuel + 1) msgs cnt =
          (maxTurnsResult cnt M, 1)) ∧
    (∀ (oracle : List Message → Except String ModelResponse)
       (ct : String → Json → Except String Json) (M : Nat) (prompt : String),
        (∀ msgs, ∃ r s, oracle msgs = .ok r ∧ r.stop_reason = .other s) →
        agentRun oracle ct M prompt =
          .ok (⟨"Max turns reached", [], M⟩, M)) := by
  constructor
  · intro oracle ct names M fuel msgs cnt r s hr hs
    conv_lhs => rw [executeTaskAux]
    rw [hr]
    simp only [hs]
  · intro oracle ct M prompt h
    exact agentRunAux_always_other oracle ct M h M [⟨"user", .text prompt⟩] []

/-- Witness for the amended C4 theorem at a concrete always-`max_tokens`
model. -/
theorem c4_unexpected_stop_reason_amended_witness :
    executeTaskAux oracleC4 ctC4 ["email"] 5 5 [⟨"user", .text "hi"⟩] 0 =
      (maxTurnsResult 0 5, 1) ∧
    agentRun oracleC4 ctC4 4 "hi" = .ok (⟨"Max turns reached", [], 4⟩, 4) :=
  ⟨c4_unexpected_stop_reason_amended.1 oracleC4 ctC4 ["email"] 5 4
      [⟨"user", .text "hi"⟩] 0 ⟨.other "max_tokens", []⟩ "max_tokens" rfl rfl,
   c4_unexpected_stop_reason_amended.2 oracleC4 ctC4 4 "hi"
      (fun _ => ⟨_, _, rfl, rfl⟩)⟩

/-! ## Claim C5 -/

/-- Discovery environment for C5: every server publishes a tool `ping`. -/
def listToolsC5 : String → Except String (List ToolSpec) := fun _ =>
  .ok [⟨"ping", "", .obj []⟩]

/-- Configuration for C5: backend Y is discovered first, backend X after. -/
def cfgC5 : List (String × ServerCfg) :=
  [("Y", ⟨true, some "http://y", ""⟩), ("X", ⟨true, some "http://x", ""⟩)]

/-- A transport that answers `tools/call` with a text block naming the URL
it was reached at, so the dispatch target is observable. -/
def postC5 : String → Json → Except String Json := fun url _ =>
  .ok (.obj [("result", .obj [("content", .arr [.obj [("type", .str "text"),
    ("text", .str url)]])])])

/-- Claim C5, counterexample: with X discovered after Y and both
publishing `ping`, `call_tool` dispatches to Y — the FIRST-registered
backend — not to X as the claim states, in both agent.py and
agent_runner.py. -/
theorem c5_last_registered_counterexample :
    (connect listToolsC5 cfgC5).servers.map MCPServer.name = ["Y", "X"] ∧
    call_tool postC5 (connect listToolsC5 cfgC5).servers "ping" (.obj []) =
      .ok (.str "http://y") ∧
    runnerCallTool postC5 (connect listToolsC5 cfgC5).servers "ping" (.obj []) =
      .ok (.str "http://y") ∧
    (Json.str "http://y") ≠ (Json.str "http://x") := by
  refine ⟨rfl, rfl, rfl, ?_⟩
  intro h
  injection h with h2
  exact absurd h2 (by decide)

/-- Claim C5, amended: on a name collision the FIRST server in discovery
order that publishes the tool receives the call — `call_tool` in agent.py
and agent_runner.py implement the same first-match scan; by contrast
test_local's `server_tools` dict registers tools with
last-write-wins overwriting, so there the later backend would resolve. -/
theorem c5_tool_resolution_amended :
    (∀ (post : String → Json → Except String Json) (servers : List MCPServer)
       (n : String) (a : Json),
        call_tool post servers n a = runnerCallTool post servers n a) ∧
    (∀ (pre rest : List MCPServer) (s : MCPServer) (n : String),
        (∀ s2 ∈ pre, n ∉ s2.tools.map ToolSpec.name) →
        n ∈ s.tools.map ToolSpec.name →
        findTargetServer (pre ++ s :: rest) n = some s) ∧
    (∀ (α : Type) (m : List (String × α)) (k : String) (v : α),
        dictGet (dictInsert m k v) k = some v) := by
  refine ⟨call_tool_eq_runnerCallTool, ?_, ?_⟩
  · intro pre
    induction pre with
    | nil =>
        intro rest s n _ hs
        show findTargetServer (s :: rest) n = some s
        unfold findTargetServer
        rw [if_pos hs]
    | cons p pre ih =>
        intro rest s n hpre hs
        have hp : n ∉ p.tools.map ToolSpec.name := hpre p (List.mem_cons_self p pre)
        show findTargetServer (p :: (pre ++ s :: rest)) n = some s
        unfold findTargetServer
        rw [if_neg hp]
        exact ih rest s n (fun s2 hs2 => hpre s2 (List.mem_cons_of_mem p hs2)) hs
  · intro α m
    induction m with
    | nil =>
        intro k v
        simp [dictInsert, dictGet]
    | cons e rest ih =>
        intro k v
        obtain ⟨k2, v2⟩ := e
        by_cases hk : k2 = k
        · simp [dictInsert, dictGet, hk]
        · simp only [dictInsert, dictGet, if_neg hk]
          exact ih k v

/-- A server publishing no tool named `ping`, for the C5 witness. -/
def serverOtherC5 : MCPServer := ⟨"Z", "http://z", "", true, [⟨"pong", "", .obj []⟩]⟩

/-- Backend Y of the C5 witness. -/
def serverYC5 : MCPServer := ⟨"Y", "http://y", "", true, [⟨"ping", "", .obj []⟩]⟩

/-- Backend X of the C5 witness, discovered after Y. -/
def serverXC5 : MCPServer := ⟨"X", "http://x", "", true, [⟨"ping", "", .obj []⟩]⟩

/-- Witness for the amended C5 theorem on a concrete three-server
catalog. -/
theorem c5_tool_resolution_amended_witness :
    call_tool postC5 [serverOtherC5, serverYC5, serverXC5] "ping" (.obj []) =
      runnerCallTool postC5 [serverOtherC5, serverYC5, serverXC5] "ping" (.obj []) ∧
    findTargetServer ([serverOtherC5] ++ serverYC5 :: [serverXC5]) "ping" =
      some serverYC5 ∧
    dictGet (dictInsert [("ping", "http://y")] "ping" "http://x") "ping" =
      some "http://x" :=
  ⟨c5_tool_resolution_amended.1 postC5 [serverOtherC5, serverYC5, serverXC5]
      "ping" (.obj []),
   c5_tool_resolution_amended.2.1 [serverOtherC5] [serverXC5] serverYC5 "ping"
      (by
        intro s2 hs2
        have : s2 = serverOtherC5 := by
          cases hs2 with
          | head => rfl
          | tail _ h2 => cases h2
        subst this
        simp [serverOtherC5])
      (by simp [serverYC5]),
   c5_tool_resolution_amended.2.2 String [("ping", "http://y")] "ping" "http://x"⟩

/-! ## Claim C6 -/

/-- The email backend of the C6 theorems. -/
def serverC6 : MCPServer :=
  ⟨"email", "http://e", "", true, [⟨"send_email", "", .obj []⟩]⟩

/-- A transport whose `tools/call` answer is HTTP 2xx with a JSON-RPC
error object in the body (the shape email_mcp_lambda returns on an SES
failure). -/
def postC6 : String → Json → Except String Json := fun _ _ =>
  .ok (.obj [("jsonrpc", .str "2.0"), ("id", .num 1),
    ("error", .obj [("code", .num (-32000)), ("message", .str "SES send failed")])])

/-- The body `postC6` returns. -/
def errBodyC6 : Json :=
  .obj [("jsonrpc", .str "2.0"), ("id", .num 1),
    ("error", .obj [("code", .num (-32000)), ("message", .str "SES send failed")])]

/-- The arguments of the C6 tool call. -/
def argsC6 : Json := .obj [("to_email", .str "a@example.com")]

/-- Claim C6, counterexample: on a 2xx `tools/call` response whose body
carries `\x7b"code\x22: -32000, "message": "SES send failed"\x7d`, `call_tool`
returns the plain string `[]` as an ordinary success — the Invocation
Result handed to the model is NOT failure-tagged (`is_error` is absent)
and does not contain the remote error message. -/
theorem c6_remote_error_counterexample :
    call_tool postC6 [serverC6] "send_email" argsC6 = .ok (.str "[]") ∧
    runnerCallTool postC6 [serverC6] "send_email" argsC6 = .ok (.str "[]") ∧
    runnerToolResults (fun n a => runnerCallTool postC6 [serverC6] n a)
      [.toolUse "tu1" "send_email" argsC6] =
      [⟨"tu1", .str "[]", none⟩] ∧
    (⟨"tu1", .str "[]", none⟩ : ToolResult).is_error ≠ some true := by
  refine ⟨rfl, rfl, rfl, ?_⟩
  intro h
  cases h

/-- Claim C6, amended: when the `tools/call` HTTP response succeeds (2xx)
but its JSON body carries an `error` object instead of a `result`,
`call_tool` in agent.py and agent_runner.py does not surface the remote
error: it reads the missing `result.content` as the empty list and
returns its string rendering `[]` as an ordinary success value; the run
does not crash, and the model never sees the remote message. -/
theorem c6_remote_error_swallowed_amended :
    ∀ (post : String → Json → Except String Json) (servers : List MCPServer)
      (n : String) (a : Json) (s : MCPServer) (body : Json),
      findTargetServer servers n = some s →
      rpcRequest post s.url "tools/call"
        (.obj [("name", .str n),
               ("arguments", if pyTruthy a then a else .obj [])]) = .ok body →
      pyGetD body "result" (.obj []) = .ok (.obj []) →
      call_tool post servers n a = .ok (.str "[]") ∧
      runnerCallTool post servers n a = .ok (.str "[]") := by
  intro post servers n a s body hfind hrpc hres
  have hrun : runnerCallTool post servers n a = .ok (.str "[]") := by
    unfold runnerCallTool
    rw [hfind]
    simp only [hrpc, okBind]
    unfold extractContent
    rw [hres]
    simp only [okBind, pyGetD_obj, lookupKey]
    rfl
  exact ⟨(call_tool_eq_runnerCallTool post servers n a).trans hrun, hrun⟩

/-- Witness for the amended C6 theorem at the concrete SES-failure
response. -/
theorem c6_remote_error_swallowed_amended_witness :
    call_tool postC6 [serverC6] "send_email" argsC6 = .ok (.str "[]") ∧
    runnerCallTool postC6 [serverC6] "send_email" argsC6 = .ok (.str "[]") :=
  c6_remote_error_swallowed_amended postC6 [serverC6] "send_email" argsC6
    serverC6 errBodyC6 rfl rfl rfl

/-! ## Claim C7 -/

/-- The backend of the C7 theorems. -/
def serverC7 : MCPServer := ⟨"srv", "http://s", "", true, [⟨"ping", "", .obj []⟩]⟩

/-- A transport whose `tools/call` result carries an empty content
array. -/
def postC7 : String → Json → Except String Json := fun _ _ =>
  .ok (.obj [("result", .obj [("content", .arr [])])])

/-- The body `postC7` returns. -/
def emptyBodyC7 : Json := .obj [("result", .obj [("content", .arr [])])]

/-- A transport whose `tools/call` result's first content entry is not a
text block. -/
def postImgC7 : String → Json → Except String Json := fun _ _ =>
  .ok (.obj [("result", .obj [("content",
    .arr [.obj [("type", .str "image"), ("data", .str "zz")]])])])

/-- The body `postImgC7` returns. -/
def imgBodyC7 : Json := .obj [("result", .obj [("content",
  .arr [.obj [("type", .str "image"), ("data", .str "zz")]])])]

/-- Claim C7, counterexample: an empty `content` array does NOT degrade to
an empty-string result in agent.py / agent_runner.py — `call_tool` returns
`str([])`, the two-character string `[]`. -/
theorem c7_empty_content_counterexample :
    call_tool postC7 [serverC7] "ping" (.obj []) = .ok (.str "[]") ∧
    call_tool postC7 [serverC7] "ping" (.obj []) ≠ .ok (.str "") := by
  refine ⟨rfl, ?_⟩
  intro h
  have h2 : (Except.ok (Json.str "[]") : Except String Json) = .ok (.str "") := h
  injection h2 with h3
  injection h3 with h4
  exact absurd h4 (by decide)

/-- Claim C7, amended: a `tools/call` result whose content array is empty
or whose first entry is not a text block makes `call_tool` return the
Python string rendering of the content array — `[]` for the empty array
in agent.py / agent_runner.py (not the empty string) and the
`repr`-rendering of the array for a non-text first entry; only
test_local's `call_tool` returns the empty string, and only for the
empty-content case. None of them fails. -/
theorem c7_content_degradation_amended :
    (∀ (post : String → Json → Except String Json) (servers : List MCPServer)
       (n : String) (a : Json) (s : MCPServer) (body r : Json),
        findTargetServer servers n = some s →
        rpcRequest post s.url "tools/call"
          (.obj [("name", .str n),
                 ("arguments", if pyTruthy a then a else .obj [])]) = .ok body →
        pyGetD body "result" (.obj []) = .ok r →
        pyGetD r "content" (.arr []) = .ok (.arr []) →
        call_tool post servers n a = .ok (.str "[]") ∧
        runnerCallTool post servers n a = .ok (.str "[]")) ∧
    (∀ (post : String → Json → Except String Json) (servers : List MCPServer)
       (n : String) (a : Json) (s : MCPServer) (body r c0 : Json)
       (cs : List Json) (ty : Json),
        findTargetServer servers n = some s →
        rpcRequest post s.url "tools/call"
          (.obj [("name", .str n),
                 ("arguments", if pyTruthy a then a else .obj [])]) = .ok body →
        pyGetD body "result" (.obj []) = .ok r →
        pyGetD r "content" (.arr []) = .ok (.arr (c0 :: cs)) →
        pyGetD c0 "type" .null = .ok ty →
        ty ≠ .str "text" →
        call_tool post servers n a = .ok (.str (pyStrTop (.arr (c0 :: cs)))) ∧
        runnerCallTool post servers n a = .ok (.str (pyStrTop (.arr (c0 :: cs))))) ∧
    (∀ (post : String → Json → Except String Json) (url n : String) (a : Json)
       (body r : Json),
        post url (.obj [("jsonrpc", .str "2.0"), ("method", .str "tools/call"),
          ("params", .obj [("name", .str n), ("arguments", a)]),
          ("id", .num 1)]) = .ok body →
        pyGetD body "result" (.obj []) = .ok r →
        pyGetD r "content" (.arr []) = .ok (.arr []) →
        testCallTool post url n a = .ok (.str "")) := by
  refine ⟨?_, ?_, ?_⟩
  · intro post servers n a s body r hfind hrpc hres hcont
    have hrun : runnerCallTool post servers n a = .ok (.str "[]") := by
      unfold runnerCallTool
      rw [hfind]
      simp only [hrpc, okBind]
      unfold extractContent
      rw [hres]
      simp only [okBind]
      rw [hcont]
      simp only [okBind]
      rfl
    exact ⟨(call_tool_eq_runnerCallTool post servers n a).trans hrun, hrun⟩
  · intro post servers n a s body r c0 cs ty hfind hrpc hres hcont hty htext
    have hrun : runnerCallTool post servers n a =
        .ok (.str (pyStrTop (.arr (c0 :: cs)))) := by
      unfold runnerCallTool
      rw [hfind]
      simp only [hrpc, okBind]
      unfold extractContent
      rw [hres]
      simp only [okBind]
      rw [hcont]
      simp only [okBind]
      rw [if_pos (by simp [pyTruthy])]
      rw [show pyIndex0 (.arr (c0 :: cs)) = .ok c0 from rfl]
      simp only [okBind]
      rw [hty]
      simp only [okBind]
      rfl
    exact ⟨(call_tool_eq_runnerCallTool post servers n a).trans hrun, hrun⟩
  · intro post url n a body r hpost hres hcont
    unfold testCallTool
    rw [hpost]
    simp only [okBind]
    rw [hres]
    simp only [okBind]
    rw [hcont]
    simp only [okBind]
    rfl

/-- Witness for the amended C7 theorem at concrete empty-content and
image-content responses. -/
theorem c7_content_degradation_amended_witness :
    call_tool postC7 [serverC7] "ping" (.obj []) = .ok (.str "[]") ∧
    runnerCallTool postImgC7 [serverC7] "ping" (.obj []) =
      .ok (.str (pyStrTop (.arr [.obj [("type", .str "image"),
        ("data", .str "zz")]]))) ∧
    testCallTool postC7 "http://s" "ping" (.obj []) = .ok (.str "") :=
  ⟨(c7_content_degradation_amended.1 postC7 [serverC7] "ping" (.obj [])
      serverC7 emptyBodyC7 (.obj [("content", .arr [])]) rfl rfl rfl rfl).1,
   (c7_content_degradation_amended.2.1 postImgC7 [serverC7] "ping" (.obj [])
      serverC7 imgBodyC7 (.obj [("content",
        .arr [.obj [("type", .str "image"), ("data", .str "zz")]])])
      (.obj [("type", .str "image"), ("data", .str "zz")]) []
      (.str "image") rfl rfl rfl rfl rfl (by simp)).2,
   c7_content_degradation_amended.2.2 postC7 "http://s" "ping" (.obj [])
      emptyBodyC7 (.obj [("content", .arr [])]) rfl rfl rfl⟩

/-! ## Claim C8 -/

/-- Specification-side merged catalog, following the spec words: exactly
the tools of the enabled, URL-bearing backends whose discovery call
succeeded, in configuration order, each tagged with its backend's name;
a failed backend contributes nothing. Written for comparison with the
catalogs the code builds. -/
def specMergedCatalog (listTools : String → Except String (List ToolSpec)) :
    List (String × ServerCfg) → List (ToolSpec × String)
  | [] => []
  | (name, cfg) :: rest =>
      (if cfg.enabled then
        match cfg.httpUrl with
        | none => []
        | some url =>
            if url = "" then []
            else
              match listTools url with
              | .error _ => []
              | .ok tools => tools.map (fun t => (t, name))
       else []) ++ specMergedCatalog listTools rest

/-- Claim C8: a backend whose discovery fails is skipped and the remaining
backends still contribute — in both agent.py `connect` and agent_runner
`connect_to_servers` the merged `all_tools` catalog is exactly the
specification catalog (the tools of the backends whose discovery
succeeded, in order), and both discovery loops are total functions: a
backend failure never aborts the run. -/
theorem c8_partial_discovery :
    ∀ (listTools : String → Except String (List ToolSpec))
      (config : List (String × ServerCfg)),
      (connect listTools config).all_tools = specMergedCatalog listTools config ∧
      (connectToServers listTools config).all_tools =
        specMergedCatalog listTools config := by
  intro listTools config
  induction config with
  | nil => exact ⟨rfl, rfl⟩
  | cons e rest ih =>
      obtain ⟨name, cfg⟩ := e
      obtain ⟨ih1, ih2⟩ := ih
      constructor
      · by_cases he : cfg.enabled
        · cases hu : cfg.httpUrl with
          | none => simpa [connect, specMergedCatalog, he, hu] using ih1
          | some url =>
              by_cases hblank : url = ""
              · simpa [connect, specMergedCatalog, he, hu, hblank] using ih1
              · cases hl : listTools url with
                | error e2 =>
                    simpa [connect, specMergedCatalog, he, hu, hblank, hl] using ih1
                | ok tools =>
                    simp [connect, specMergedCatalog, he, hu, hblank, hl, ih1]
        · simpa [connect, specMergedCatalog, he] using ih1
      · by_cases he : cfg.enabled
        · cases hu : cfg.httpUrl with
          | none => simpa [connectToServers, specMergedCatalog, he, hu] using ih2
          | some url =>
              by_cases hblank : url = ""
              · simpa [connectToServers, specMergedCatalog, he, hu, hblank] using ih2
              · cases hl : listTools url with
                | error e2 =>
                    simpa [connectToServers, specMergedCatalog, he, hu, hblank, hl]
                      using ih2
                | ok tools =>
                    simp [connectToServers, specMergedCatalog, he, hu, hblank, hl, ih2]
        · simpa [connectToServers, specMergedCatalog, he] using ih2

/-! ## Claim C9 -/

/-- Claim C9: for every parsed stdin message with a non-null `id`, the
proxy writes exactly one stdout line — the downstream response body when
the POST and its JSON parsing succeed, and otherwise the JSON-RPC error
envelope with code -32603 carrying the message's own `id`. -/
theorem c9_proxy_one_response_per_request :
    ∀ (post : Json → Except String Json) (kvs : List (String × Json))
      (mid : Json),
      (lookupKey kvs "id").getD .null = mid → mid ≠ .null →
      processMsg post (.obj kvs) =
        .ok [match post (.obj kvs) with
             | .ok body => pyDumps body ++ "\n"
             | .error exc => pyDumps (proxyErrorEnvelope mid exc) ++ "\n"] := by
  intro post kvs mid hmid hnull
  simp only [processMsg, pyGetD_obj, hmid, okBind]
  cases hpost : post (.obj kvs) with
  | ok body => cases mid <;> first | exact absurd rfl hnull | rfl
  | error e => cases mid <;> first | exact absurd rfl hnull | rfl

/-- Witness for C9: a concrete id-5 `tools/list` request, once against a
downstream that raises a connection error (the -32603 envelope with id 5
is emitted) and once against a downstream that answers (its body is
forwarded as the single output line). -/
theorem c9_proxy_one_response_per_request_witness :
    processMsg (fun _ => .error "Connection refused")
      (.obj [("jsonrpc", .str "2.0"), ("method", .str "tools/list"),
        ("id", .num 5)]) =
      .ok [pyDumps (proxyErrorEnvelope (.num 5) "Connection refused") ++ "\n"] ∧
    processMsg
      (fun _ => .ok (.obj [("jsonrpc", .str "2.0"), ("id", .num 5),
        ("result", .obj [])]))
      (.obj [("jsonrpc", .str "2.0"), ("method", .str "tools/list"),
        ("id", .num 5)]) =
      .ok [pyDumps (.obj [("jsonrpc", .str "2.0"), ("id", .num 5),
        ("result", .obj [])]) ++ "\n"] :=
  ⟨c9_proxy_one_response_per_request _ _ (.num 5) rfl
      (by intro h; exact Json.noConfusion h),
   c9_proxy_one_response_per_request _ _ (.num 5) rfl
      (by intro h; exact Json.noConfusion h)⟩

/-! ## Claim C10 -/

/-- Claim C10: test_local `run` is total only for `max_turns ≥ 1`. At
`max_turns = 0` the loop body never runs and building the result raises
`UnboundLocalError` on the loop variable `turn` (whenever discovery
itself succeeded); for `max_turns ≥ 1`, when the model endpoint and the
per-turn tool execution return (instead of raising), the run returns a
Session Result — a dict with the `response`, `tools_used` and `turns`
keys. -/
theorem c10_zero_max_turns_unbound_local :
    (∀ (oracle : List Message → Except String ModelResponse)
       (post : String → Json → Except String Json)
       (listTools : String → Except String (List ToolSpec))
       (servers : List (String × String)) (prompt : String)
       (st : List (String × (String × ToolSpec))),
        testDiscover listTools servers = .ok st →
        testLocalRun oracle post listTools servers prompt 0 =
          .error "UnboundLocalError: turn") ∧
    (∀ (oracle : List Message → Except String ModelResponse)
       (post : String → Json → Except String Json)
       (listTools : String → Except String (List ToolSpec))
       (servers : List (String × String)) (prompt : String) (M : Nat)
       (st : List (String × (String × ToolSpec))),
        1 ≤ M →
        testDiscover listTools servers = .ok st →
        (∀ msgs, ∃ r, oracle msgs = .ok r) →
        (∀ content, ∃ trs, testToolResults post st content = .ok trs) →
        ∃ res : SessionResult,
          testLocalRun oracle post listTools servers prompt M = .ok res) := by
  constructor
  · intro oracle post listTools servers prompt st hd
    unfold testLocalRun
    rw [hd]
    simp only [okBind]
    rfl
  · intro oracle post listTools servers prompt M st hM hd horacle htools
    have haux : ∀ fuel msgs used t0,
        ∃ out, testLocalAux oracle post st M fuel msgs used (some t0) =
          .ok out ∧ out.2.2.isSome := by
      intro fuel
      induction fuel with
      | zero => intro msgs used t0; exact ⟨("", used, some t0), rfl, rfl⟩
      | succ fuel ih =>
          intro msgs used t0
          obtain ⟨r, hr⟩ := horacle msgs
          cases hs : r.stop_reason with
          | endTurn =>
              refine ⟨(finalText r.content, used, some (M - (fuel + 1))), ?_, rfl⟩
              conv_lhs => rw [testLocalAux]
              rw [hr]
              simp only [okBind]
              rw [hs]
              rfl
          | toolUse =>
              obtain ⟨trs, htrs⟩ := htools r.content
              obtain ⟨out, hout, hsome⟩ := ih
                (msgs ++ [⟨"assistant", .blocks r.content⟩, ⟨"user", .results trs⟩])
                (used ++ usedNames r.content) (M - (fuel + 1))
              refine ⟨out, ?_, hsome⟩
              conv_lhs => rw [testLocalAux]
              rw [hr]
              simp only [okBind]
              rw [hs, htrs]
              simp only [okBind]
              exact hout
          | other s =>
              obtain ⟨out, hout, hsome⟩ := ih msgs used (M - (fuel + 1))
              refine ⟨out, ?_, hsome⟩
              conv_lhs => rw [testLocalAux]
              rw [hr]
              simp only [okBind]
              rw [hs]
              exact hout
    obtain ⟨M2, rfl⟩ : ∃ M2, M = M2 + 1 := ⟨M - 1, by omega⟩
    obtain ⟨r, hr⟩ := horacle [⟨"user", .text prompt⟩]
    unfold testLocalRun
    rw [hd]
    simp only [okBind]
    cases hs : r.stop_reason with
    | endTurn =>
        refine ⟨⟨finalText r.content, [], M2 + 1 - (M2 + 1) + 1⟩, ?_⟩
        conv_lhs => rw [testLocalAux]
        rw [hr]
        simp only [okBind]
        rw [hs]
        rfl
    | toolUse =>
        obtain ⟨trs, htrs⟩ := htools r.content
        obtain ⟨out, hout, hsome⟩ := haux M2
          ([⟨"user", .text prompt⟩] ++
            [⟨"assistant", .blocks r.content⟩, ⟨"user", .results trs⟩])
          ([] ++ usedNames r.content) (M2 + 1 - (M2 + 1))
        obtain ⟨text, used2, lt2⟩ := out
        cases lt2 with
        | none => cases hsome
        | some t =>
            refine ⟨⟨text, used2, t + 1⟩, ?_⟩
            conv_lhs => rw [testLocalAux]
            rw [hr]
            simp only [okBind]
            rw [hs, htrs]
            simp only [okBind]
            rw [hout]
            rfl
    | other s =>
        obtain ⟨out, hout, hsome⟩ := haux M2 [⟨"user", .text prompt⟩] []
          (M2 + 1 - (M2 + 1))
        obtain ⟨text, used2, lt2⟩ := out
        cases lt2 with
        | none => cases hsome
        | some t =>
            refine ⟨⟨text, used2, t + 1⟩, ?_⟩
            conv_lhs => rw [testLocalAux]
            rw [hr]
            simp only [okBind]
            rw [hs]
            rw [hout]
            rfl

/-- A model that immediately produces a final answer, for the C10
witness. -/
def oracleC10 : List Message → Except String ModelResponse := fun _ =>
  .ok ⟨.endTurn, [.text "done"]⟩

/-- A trivial transport for the C10 witness. -/
def postC10 : String → Json → Except String Json := fun _ _ => .ok (.obj [])

/-- An empty discovery environment for the C10 witness. -/
def listToolsC10 : String → Except String (List ToolSpec) := fun _ => .ok []

/-- Witness for C10: with no configured servers, `run` at `max_turns = 0`
raises `UnboundLocalError` while `max_turns = 2` returns the Session
Result of the first (final-answer) turn. -/
theorem c10_zero_max_turns_unbound_local_witness :
    testLocalRun oracleC10 postC10 listToolsC10 [] "hi" 0 =
      .error "UnboundLocalError: turn" ∧
    testLocalRun oracleC10 postC10 listToolsC10 [] "hi" 2 =
      .ok ⟨"done", [], 1⟩ := by
  constructor
  · exact c10_zero_max_turns_unbound_local.1 oracleC10 postC10 listToolsC10
      [] "hi" [] rfl
  · obtain ⟨res, hres⟩ := c10_zero_max_turns_unbound_local.2 oracleC10 postC10
      listToolsC10 [] "hi" 2 [] (by omega) rfl (fun _ => ⟨_, rfl⟩)
      (testToolResults_total postC10 []
        (fun n a info hinfo => by cases hinfo))
    exact rfl

end MCPRepo
